import Mathlib

/-!
Verification of the sales-dashboard core (data generator, filter chain,
metrics engine, aggregation engine, trend estimator) against its
natural-language specification.

The tabular data is embedded shallowly: a pandas DataFrame of sales
records becomes a `List Transaction`; timestamps are integers counting
milliseconds from an epoch; monetary values are rationals; the pandas
two-decimal rounding (round half to even) is `round2`.  Python float
division by zero (which yields an IEEE infinity or NaN, never an
exception, on numpy scalars) is modelled by the `FloatQ` type.
-/

/-- Milliseconds in one day, the unit used by the date arithmetic of
`filtrar_por_periodo` (`pd.Timedelta(days=1) - pd.Timedelta(milliseconds=1)`). -/
def msPerDay : ℤ := 86400000

/-- Sale status: the three values produced by the generator
("Concluída", "Pendente", "Cancelada"). -/
inductive Status where
  | Concluida
  | Pendente
  | Cancelada
deriving DecidableEq, Repr

/-- The fixed eight product categories of `data_generator.py`. -/
inductive Categoria where
  | Eletronicos
  | Roupas
  | CasaEJardim
  | Esportes
  | Livros
  | Brinquedos
  | Alimentos
  | Beleza
deriving DecidableEq, Repr

/-- The fixed five regions of `data_generator.py`. -/
inductive Regiao where
  | Norte
  | Nordeste
  | CentroOeste
  | Sudeste
  | Sul
deriving DecidableEq, Repr

/-- One sales record: the row layout built by `gerar_dados_vendas`
(`Data` is a timestamp in milliseconds; `Desconto_pct` is the
"Desconto_%" column). Derived calendar columns are recomputed from
`Data` where the processor needs them, as `tendencias` itself does. -/
structure Transaction where
  ID : String
  Data : ℤ
  Categoria : Categoria
  Produto : String
  Regiao : Regiao
  Cidade : String
  Valor_Unitario : ℚ
  Quantidade : ℕ
  Valor_Total : ℚ
  Desconto_pct : ℚ
  Valor_Final : ℚ
  Status : Status
  Metodo_Pagamento : String
  Vendedor : String
  Cliente_ID : String
deriving DecidableEq, Repr

/-- Argument shape of the categorical filters: Python accepts `None`,
a single scalar value, or a list (`isinstance(status, list)`); `None`
and the empty list are falsy, so they disable the filter. -/
inductive Selection (α : Type) where
  | none
  | single (a : α)
  | multi (l : List α)
deriving DecidableEq, Repr

/-- `DataProcessor.filtrar_por_periodo`, view level: keep `Data ≥ data_inicio`
(when given) and `Data ≤ data_fim + 1 day − 1 ms` (when given).  The
source guards on the presence of the `Data` column, which the typed row
always has. -/
def filtrar_por_periodo (df : List Transaction) (data_inicio data_fim : Option ℤ) :
    List Transaction :=
  let df1 := match data_inicio with
    | Option.none => df
    | Option.some s => df.filter fun r => s ≤ r.Data
  match data_fim with
  | Option.none => df1
  | Option.some e => df1.filter fun r => r.Data ≤ e + msPerDay - 1

/-- `DataProcessor.filtrar_por_status`: `None` and `[]` are falsy in
Python, so they leave the view unchanged; a list filters by membership,
a scalar by equality. -/
def filtrar_por_status (df : List Transaction) (status : Selection Status) :
    List Transaction :=
  match status with
  | Selection.none => df
  | Selection.multi [] => df
  | Selection.multi l => df.filter fun r => r.Status ∈ l
  | Selection.single s => df.filter fun r => r.Status = s

/-- `DataProcessor.filtrar_por_categoria`: same shape as the status filter. -/
def filtrar_por_categoria (df : List Transaction) (categorias : Selection Categoria) :
    List Transaction :=
  match categorias with
  | Selection.none => df
  | Selection.multi [] => df
  | Selection.multi l => df.filter fun r => r.Categoria ∈ l
  | Selection.single c => df.filter fun r => r.Categoria = c

/-- `DataProcessor.filtrar_por_regiao`: same shape as the status filter. -/
def filtrar_por_regiao (df : List Transaction) (regioes : Selection Regiao) :
    List Transaction :=
  match regioes with
  | Selection.none => df
  | Selection.multi [] => df
  | Selection.multi l => df.filter fun r => r.Regiao ∈ l
  | Selection.single g => df.filter fun r => r.Regiao = g

/-- The `DataProcessor` state: the current view `df` and the pristine
copy `df_original` taken at construction time. -/
structure DataProcessor where
  df : List Transaction
  df_original : List Transaction
deriving Repr

/-- `DataProcessor.__init__`: both the working view and the original are
(copies of) the constructor argument. -/
def DataProcessor.mkProc (df : List Transaction) : DataProcessor :=
  { df := df, df_original := df }

/-- `DataProcessor.reset_filtros`: restore the view from the original. -/
def reset_filtros (p : DataProcessor) : DataProcessor :=
  { p with df := p.df_original }

/-- One user-visible filter operation on the processor. -/
inductive FilterOp where
  | periodo (data_inicio data_fim : Option ℤ)
  | status (sel : Selection Status)
  | categoria (sel : Selection Categoria)
  | regiao (sel : Selection Regiao)
  | reset

/-- Apply one filter operation to the processor, as the corresponding
method does: each filter reassigns `self.df` only. -/
def applyOp (p : DataProcessor) : FilterOp → DataProcessor
  | FilterOp.periodo s e => { p with df := filtrar_por_periodo p.df s e }
  | FilterOp.status sel => { p with df := filtrar_por_status p.df sel }
  | FilterOp.categoria sel => { p with df := filtrar_por_categoria p.df sel }
  | FilterOp.regiao sel => { p with df := filtrar_por_regiao p.df sel }
  | FilterOp.reset => reset_filtros p

/-- A chained sequence of filter operations. -/
def applyOps (p : DataProcessor) (ops : List FilterOp) : DataProcessor :=
  ops.foldl applyOp p

/-- The full status value set. -/
def allStatus : List Status := [Status.Concluida, Status.Pendente, Status.Cancelada]

/-- The full category value set, as listed in `data_generator.py`. -/
def allCategorias : List Categoria :=
  [Categoria.Eletronicos, Categoria.Roupas, Categoria.CasaEJardim, Categoria.Esportes,
   Categoria.Livros, Categoria.Brinquedos, Categoria.Alimentos, Categoria.Beleza]

/-- The full region value set, as listed in `data_generator.py`. -/
def allRegioes : List Regiao :=
  [Regiao.Norte, Regiao.Nordeste, Regiao.CentroOeste, Regiao.Sudeste, Regiao.Sul]

lemma applyOp_df_original (p : DataProcessor) (op : FilterOp) :
    (applyOp p op).df_original = p.df_original := by
  cases op <;> rfl

lemma applyOps_df_original (ops : List FilterOp) :
    ∀ p : DataProcessor, (applyOps p ops).df_original = p.df_original := by
  induction ops with
  | nil => intro p; rfl
  | cons op t ih =>
      intro p
      show (applyOps (applyOp p op) t).df_original = p.df_original
      rw [ih, applyOp_df_original]

/-- C9: for every processor and every sequence of filter operations, the
pristine original collection stays equal to the collection the processor
was constructed with, and `reset_filtros` restores the current view to
exactly that original collection. -/
theorem C9_original_preserved_and_reset (df0 : List Transaction) (ops : List FilterOp) :
    (applyOps (DataProcessor.mkProc df0) ops).df_original = df0 ∧
    (reset_filtros (applyOps (DataProcessor.mkProc df0) ops)).df = df0 := by
  have h := applyOps_df_original ops (DataProcessor.mkProc df0)
  exact ⟨h, h⟩

/-- C10: each of the four filters returns a sublist of its input view:
records are only ever removed, never added, duplicated, reordered or
modified. -/
theorem C10_filters_are_sublists (df : List Transaction) :
    (∀ s e, (filtrar_por_periodo df s e).Sublist df) ∧
    (∀ sel, (filtrar_por_status df sel).Sublist df) ∧
    (∀ sel, (filtrar_por_categoria df sel).Sublist df) ∧
    (∀ sel, (filtrar_por_regiao df sel).Sublist df) := by
  refine ⟨?_, ?_, ?_, ?_⟩
  · intro s e
    cases s <;> cases e <;>
      simp only [filtrar_por_periodo] <;>
      first
        | exact List.Sublist.refl df
        | exact List.filter_sublist df
        | exact List.Sublist.trans (List.filter_sublist _) (List.filter_sublist df)
  · intro sel
    cases sel with
    | none => exact List.Sublist.refl df
    | single a => exact List.filter_sublist df
    | multi l => cases l with
        | nil => exact List.Sublist.refl df
        | cons a t => exact List.filter_sublist df
  · intro sel
    cases sel with
    | none => exact List.Sublist.refl df
    | single a => exact List.filter_sublist df
    | multi l => cases l with
        | nil => exact List.Sublist.refl df
        | cons a t => exact List.filter_sublist df
  · intro sel
    cases sel with
    | none => exact List.Sublist.refl df
    | single a => exact List.filter_sublist df
    | multi l => cases l with
        | nil => exact List.Sublist.refl df
        | cons a t => exact List.filter_sublist df

/-- C7: filtering by an omitted (`None`) or empty selection leaves the
view exactly unchanged, and equals filtering by the full value set, for
the status, category and region filters alike. -/
theorem C7_empty_selection_is_noop (df : List Transaction) :
    (filtrar_por_status df Selection.none = df ∧
     filtrar_por_status df (Selection.multi []) = df ∧
     filtrar_por_status df (Selection.multi allStatus) = df) ∧
    (filtrar_por_categoria df Selection.none = df ∧
     filtrar_por_categoria df (Selection.multi []) = df ∧
     filtrar_por_categoria df (Selection.multi allCategorias) = df) ∧
    (filtrar_por_regiao df Selection.none = df ∧
     filtrar_por_regiao df (Selection.multi []) = df ∧
     filtrar_por_regiao df (Selection.multi allRegioes) = df) := by
  refine ⟨⟨rfl, rfl, ?_⟩, ⟨rfl, rfl, ?_⟩, ⟨rfl, rfl, ?_⟩⟩
  · show df.filter (fun r => r.Status ∈ allStatus) = df
    refine List.filter_eq_self.mpr fun r _ => ?_
    cases h : r.Status <;> simp [allStatus, h]
  · show df.filter (fun r => r.Categoria ∈ allCategorias) = df
    refine List.filter_eq_self.mpr fun r _ => ?_
    cases h : r.Categoria <;> simp [allCategorias, h]
  · show df.filter (fun r => r.Regiao ∈ allRegioes) = df
    refine List.filter_eq_self.mpr fun r _ => ?_
    cases h : r.Regiao <;> simp [allRegioes, h]

/-- Insert an element into a list so that it lands before the first
element `b` with `le a b`; on ties the inserted element stays first. -/
def insertSorted {α : Type} (le : α → α → Bool) (a : α) : List α → List α
  | [] => [a]
  | b :: t => if le a b then a :: b :: t else b :: insertSorted le a t

/-- Stable structural sort, the model of Python `sorted` and of the
pandas sorts used by the processor. -/
def sortBy {α : Type} (le : α → α → Bool) : List α → List α
  | [] => []
  | a :: t => insertSorted le a (sortBy le t)

lemma insertSorted_perm {α : Type} (le : α → α → Bool) (a : α) (l : List α) :
    (insertSorted le a l).Perm (a :: l) := by
  induction l with
  | nil => exact List.Perm.refl _
  | cons b t ih =>
      rw [insertSorted]
      by_cases h : le a b = true
      · rw [if_pos h]
      · rw [if_neg h]
        exact List.Perm.trans (List.Perm.cons b ih) (List.Perm.swap a b t)

lemma sortBy_perm {α : Type} (le : α → α → Bool) (l : List α) :
    (sortBy le l).Perm l := by
  induction l with
  | nil => exact List.Perm.refl _
  | cons a t ih =>
      rw [sortBy]
      exact List.Perm.trans (insertSorted_perm le a (sortBy le t)) (List.Perm.cons a ih)

lemma insertSorted_sorted_int (a : ℤ) (l : List ℤ) (h : l.Sorted (· ≤ ·)) :
    (insertSorted (fun x y => x ≤ y) a l).Sorted (· ≤ ·) := by
  induction l with
  | nil => simp [insertSorted]
  | cons b t ih =>
      rw [insertSorted]
      by_cases hab : a ≤ b
      · rw [if_pos (by exact decide_eq_true hab)]
        refine List.sorted_cons.mpr ⟨?_, h⟩
        intro c hc
        rcases List.mem_cons.mp hc with rfl | hct
        · exact hab
        · exact le_trans hab (List.rel_of_sorted_cons h c hct)
      · rw [if_neg (by simpa using hab)]
        have hbt : t.Sorted (· ≤ ·) := (List.sorted_cons.mp h).2
        refine List.sorted_cons.mpr ⟨?_, ih hbt⟩
        intro c hc
        have hc2 := (insertSorted_perm (fun x y : ℤ => x ≤ y) a t).mem_iff.mp hc
        rcases List.mem_cons.mp hc2 with rfl | hct
        · exact le_of_not_le hab
        · exact List.rel_of_sorted_cons h c hct

lemma sortBy_sorted_int (l : List ℤ) :
    (sortBy (fun x y => x ≤ y) l).Sorted (· ≤ ·) := by
  induction l with
  | nil => simp [sortBy]
  | cons a t ih => exact insertSorted_sorted_int a (sortBy (fun x y => x ≤ y) t) ih

/-- Round half to even at integer precision, the tie-breaking rule of
Python's `round` and of numpy/pandas `.round`. -/
def roundHalfEven (q : ℚ) : ℤ :=
  let f : ℤ := Int.floor q
  let frac : ℚ := q - f
  if frac < 1/2 then f
  else if 1/2 < frac then f + 1
  else if f % 2 = 0 then f else f + 1

/-- `round(x, 2)` / pandas `.round(2)`: round to two decimal places,
ties to even. -/
def round2 (q : ℚ) : ℚ := (roundHalfEven (100 * q) : ℚ) / 100

/-- Maximum of a series (`Series.max`); 0 on an empty series, which the
callers never hit. -/
def maxQ : List ℚ → ℚ
  | [] => 0
  | x :: xs => xs.foldl max x

/-- Minimum of a series (`Series.min`); 0 on an empty series. -/
def minQ : List ℚ → ℚ
  | [] => 0
  | x :: xs => xs.foldl min x

/-- Median of a series (`Series.median`): middle of the sorted values,
mean of the two middles for even length; 0 on an empty series. -/
def medianQ (l : List ℚ) : ℚ :=
  let s := sortBy (fun a b => a ≤ b) l
  if l.length % 2 = 1 then s.getD (l.length / 2) 0
  else (s.getD (l.length / 2 - 1) 0 + s.getD (l.length / 2) 0) / 2

/-- The metric snapshot returned by `DataProcessor.calcular_metricas_vendas`. -/
structure Metricas where
  total_vendas : ℕ
  receita_total : ℚ
  ticket_medio : ℚ
  ticket_mediano : ℚ
  total_produtos : ℕ
  vendas_canceladas : ℕ
  vendas_pendentes : ℕ
  receita_maxima : ℚ
  receita_minima : ℚ
  desconto_medio : ℚ
deriving DecidableEq, Repr

/-- `DataProcessor.calcular_metricas_vendas`: revenue metrics over the
Completed records of the view; when there are zero Completed records the
source returns the all-zero dictionary, including zero cancelled and
pending counts. -/
def calcular_metricas_vendas (df : List Transaction) : Metricas :=
  let df_vendas := df.filter fun r => r.Status = Status.Concluida
  if df_vendas = [] then
    { total_vendas := 0, receita_total := 0, ticket_medio := 0, ticket_mediano := 0,
      total_produtos := 0, vendas_canceladas := 0, vendas_pendentes := 0,
      receita_maxima := 0, receita_minima := 0, desconto_medio := 0 }
  else
    { total_vendas := df_vendas.length,
      receita_total := (df_vendas.map fun r => r.Valor_Final).sum,
      ticket_medio := (df_vendas.map fun r => r.Valor_Final).sum / df_vendas.length,
      ticket_mediano := medianQ (df_vendas.map fun r => r.Valor_Final),
      total_produtos := (df_vendas.map fun r => r.Quantidade).sum,
      vendas_canceladas := (df.filter fun r => r.Status = Status.Cancelada).length,
      vendas_pendentes := (df.filter fun r => r.Status = Status.Pendente).length,
      receita_maxima := maxQ (df_vendas.map fun r => r.Valor_Final),
      receita_minima := minQ (df_vendas.map fun r => r.Valor_Final),
      desconto_medio := (df_vendas.map fun r => r.Desconto_pct).sum / df_vendas.length }

/-- A concrete record with the given date, category, region, net value
and status; the remaining fields are fixed test data. -/
def mkT (data : ℤ) (cat : Categoria) (reg : Regiao) (vf : ℚ) (st : Status) : Transaction :=
  { ID := "T", Data := data, Categoria := cat, Produto := "P", Regiao := reg,
    Cidade := "X", Valor_Unitario := vf, Quantidade := 1, Valor_Total := vf,
    Desconto_pct := 0, Valor_Final := vf, Status := st,
    Metodo_Pagamento := "PIX", Vendedor := "V", Cliente_ID := "C" }

/-- A view consisting of a single cancelled sale. -/
def viewSoCancelada : List Transaction :=
  [mkT 0 Categoria.Eletronicos Regiao.Norte 100 Status.Cancelada]

/-- C2 counterexample: on a view with one Cancelled record and zero
Completed records, `calcular_metricas_vendas` reports zero cancelled
sales, not the actual count 1 taken over the whole view. -/
theorem C2_counterexample_zero_completed :
    ¬ ((calcular_metricas_vendas viewSoCancelada).vendas_canceladas
        = (viewSoCancelada.filter fun r => r.Status = Status.Cancelada).length) := by
  decide

/-- C2 amended: the cancelled and pending counts equal the counts of
Cancelled and Pending records in the whole view whenever the view has at
least one Completed record; when it has none, both are reported as 0
regardless of the actual counts (the all-zero degenerate branch). -/
theorem C2_status_counts (df : List Transaction) :
    ((calcular_metricas_vendas df).vendas_canceladas =
      if df.filter (fun r => r.Status = Status.Concluida) = [] then 0
      else (df.filter fun r => r.Status = Status.Cancelada).length) ∧
    ((calcular_metricas_vendas df).vendas_pendentes =
      if df.filter (fun r => r.Status = Status.Concluida) = [] then 0
      else (df.filter fun r => r.Status = Status.Pendente).length) := by
  by_cases h : df.filter (fun r => r.Status = Status.Concluida) = [] <;>
    simp [calcular_metricas_vendas, h]

/-- C6: with both bounds given, the date filter keeps exactly the
records with `start ≤ Data ≤ end + 1 day − 1 ms`; each single bound acts
alone the same way; a record stamped 23:59:59 on the end day is kept and
one stamped 00:00:00 the following day is removed. -/
theorem C6_date_filter_inclusive (df : List Transaction) (s e : ℤ) :
    (filtrar_por_periodo df (Option.some s) (Option.some e)
        = df.filter fun r => s ≤ r.Data ∧ r.Data ≤ e + msPerDay - 1) ∧
    (filtrar_por_periodo df Option.none (Option.some e)
        = df.filter fun r => r.Data ≤ e + msPerDay - 1) ∧
    (filtrar_por_periodo df (Option.some s) Option.none
        = df.filter fun r => s ≤ r.Data) ∧
    (∀ r ∈ df, r.Data = e + msPerDay - 1000 →
        r ∈ filtrar_por_periodo df Option.none (Option.some e)) ∧
    (∀ r ∈ df, r.Data = e + msPerDay →
        r ∉ filtrar_por_periodo df Option.none (Option.some e)) := by
  refine ⟨?_, rfl, rfl, ?_, ?_⟩
  · simp only [filtrar_por_periodo, List.filter_filter]
    refine List.filter_congr fun r _ => ?_
    by_cases h1 : s ≤ r.Data <;> by_cases h2 : r.Data ≤ e + msPerDay - 1 <;>
      simp [h1, h2]
  · intro r hr hd
    simp only [filtrar_por_periodo, List.mem_filter]
    refine ⟨hr, ?_⟩
    simp only [decide_eq_true_eq]
    simp only [hd]
    linarith
  · intro r hr hd
    simp only [filtrar_por_periodo, List.mem_filter]
    rintro ⟨-, hle⟩
    simp only [decide_eq_true_eq, hd] at hle
    linarith

/-- The two boundary records of the C6 scenario, with the end date at
the epoch: one at 23:59:59 (one second before next midnight) and one at
the following midnight. -/
def recUltimoMs : Transaction :=
  mkT (msPerDay - 1000) Categoria.Livros Regiao.Sul 10 Status.Concluida

/-- The record stamped exactly at the following midnight. -/
def recMeiaNoite : Transaction :=
  mkT msPerDay Categoria.Livros Regiao.Sul 10 Status.Concluida

/-- The two-record view exercising the C6 boundary. -/
def viewFronteira : List Transaction := [recUltimoMs, recMeiaNoite]

/-- C6 witness: at end date 0, the 23:59:59 record is kept and the
next-midnight record is dropped. -/
theorem C6_witness :
    recUltimoMs ∈ filtrar_por_periodo viewFronteira Option.none (Option.some 0) ∧
    recMeiaNoite ∉ filtrar_por_periodo viewFronteira Option.none (Option.some 0) := by
  refine ⟨?_, ?_⟩
  · exact (C6_date_filter_inclusive viewFronteira 0 0).2.2.2.1 recUltimoMs (by decide)
      (by decide)
  · exact (C6_date_filter_inclusive viewFronteira 0 0).2.2.2.2 recMeiaNoite (by decide)
      (by decide)

/-- One row of `DataProcessor.analise_por_categoria`: the aggregated
columns after `.round(2)` renaming. -/
structure CatRow where
  categoria : Categoria
  receita_total : ℚ
  ticket_medio : ℚ
  num_vendas : ℕ
  total_produtos : ℕ
  desconto_medio : ℚ
deriving DecidableEq, Repr

/-- `DataProcessor.analise_por_categoria`: group the Completed records
by category, aggregate sum, mean and count of the net total plus the
quantity sum and mean discount, round the numeric columns to two
decimals, and sort by `Receita_Total` descending; empty view of
Completed records gives an empty table. -/
def analise_por_categoria (df : List Transaction) : List CatRow :=
  let df_vendas := df.filter fun r => r.Status = Status.Concluida
  if df_vendas = [] then []
  else
    let cats := (df_vendas.map fun r => r.Categoria).dedup
    let rows := cats.map fun c =>
      let g := df_vendas.filter fun r => r.Categoria = c
      { categoria := c,
        receita_total := round2 ((g.map fun r => r.Valor_Final).sum),
        ticket_medio := round2 ((g.map fun r => r.Valor_Final).sum / g.length),
        num_vendas := g.length,
        total_produtos := (g.map fun r => r.Quantidade).sum,
        desconto_medio := round2 ((g.map fun r => r.Desconto_pct).sum / g.length) }
    sortBy (fun a b => b.receita_total ≤ a.receita_total) rows

/-- A rational is an exact two-decimal value when 100 times it is an
integer; every generated monetary value has this form. -/
def TwoDec (q : ℚ) : Prop := ∃ k : ℤ, 100 * q = k

lemma roundHalfEven_intCast (k : ℤ) : roundHalfEven (k : ℚ) = k := by
  simp only [roundHalfEven, Int.floor_intCast, sub_self]
  norm_num

lemma round2_twoDec {q : ℚ} (h : TwoDec q) : round2 q = q := by
  obtain ⟨k, hk⟩ := h
  have hq : q = (k : ℚ) / 100 := by
    field_simp
    linarith [hk]
  rw [round2, hk, roundHalfEven_intCast, hq]

lemma twoDec_sum {l : List ℚ} (h : ∀ x ∈ l, TwoDec x) : TwoDec l.sum := by
  induction l with
  | nil => exact ⟨0, by simp⟩
  | cons x t ih =>
      obtain ⟨k, hk⟩ := h x (List.mem_cons_self x t)
      obtain ⟨m, hm⟩ := ih fun y hy => h y (List.mem_cons_of_mem x hy)
      exact ⟨k + m, by push_cast; rw [List.sum_cons, mul_add, hk, hm]⟩

lemma sum_map_ite_mem {cs : List Categoria} (hn : cs.Nodup) {a : Categoria}
    (ha : a ∈ cs) (x : ℚ) (g : Categoria → ℚ) :
    (cs.map fun c => if c = a then x + g c else g c).sum = x + (cs.map g).sum := by
  induction cs with
  | nil => cases ha
  | cons b t ih =>
      rcases List.mem_cons.mp ha with h | hat
      · subst h
        have hnt : a ∉ t := (List.nodup_cons.mp hn).1
        have hmap : (t.map fun c => if c = a then x + g c else g c) = t.map g :=
          List.map_congr_left fun c hc => if_neg fun (h : c = a) => hnt (h ▸ hc)
        rw [List.map_cons, List.sum_cons, hmap, if_pos rfl, List.map_cons, List.sum_cons]
        ring
      · have hb : b ≠ a := fun h => (List.nodup_cons.mp hn).1 (h ▸ hat)
        simp only [List.map_cons, List.sum_cons, if_neg hb]
        rw [ih (List.nodup_cons.mp hn).2 hat]; ring

lemma sum_fiber (l : List Transaction) (cs : List Categoria) (hn : cs.Nodup)
    (hc : ∀ r ∈ l, r.Categoria ∈ cs) (f : Transaction → ℚ) :
    (cs.map fun c => ((l.filter fun r => r.Categoria = c).map f).sum).sum
      = (l.map f).sum := by
  induction l with
  | nil => simp
  | cons r t ih =>
      have hrc : r.Categoria ∈ cs := hc r (List.mem_cons_self r t)
      have ht : ∀ x ∈ t, x.Categoria ∈ cs := fun x hx => hc x (List.mem_cons_of_mem r hx)
      have hsplit : ∀ c : Categoria,
          (((r :: t).filter fun x => x.Categoria = c).map f).sum
            = if c = r.Categoria then f r + ((t.filter fun x => x.Categoria = c).map f).sum
              else ((t.filter fun x => x.Categoria = c).map f).sum := by
        intro c
        by_cases h : r.Categoria = c
        · rw [if_pos h.symm]
          simp [List.filter_cons, h]
        · rw [if_neg fun hc => h hc.symm]
          simp [List.filter_cons, h]
      calc (cs.map fun c => (((r :: t).filter fun x => x.Categoria = c).map f).sum).sum
          = (cs.map fun c =>
              if c = r.Categoria then f r + ((t.filter fun x => x.Categoria = c).map f).sum
              else ((t.filter fun x => x.Categoria = c).map f).sum).sum := by
            exact congrArg List.sum (List.map_congr_left fun c _ => hsplit c)
        _ = f r + (cs.map fun c => ((t.filter fun x => x.Categoria = c).map f).sum).sum :=
            sum_map_ite_mem hn hrc (f r) _
        _ = f r + (t.map f).sum := by rw [ih ht]
        _ = ((r :: t).map f).sum := by simp

/-- C4 amended: when every Completed record's net total is an exact
two-decimal value (as all generated data is), the `Receita_Total`
column of `analise_por_categoria` sums to exactly
`calcular_metricas_vendas` total revenue; in general the per-group
two-decimal rounding can make the sums differ. -/
theorem C4_category_sum_equals_total (df : List Transaction)
    (h : ∀ r ∈ df, r.Status = Status.Concluida → TwoDec r.Valor_Final) :
    ((analise_por_categoria df).map fun row => row.receita_total).sum
      = (calcular_metricas_vendas df).receita_total := by
  by_cases hv : df.filter (fun r => r.Status = Status.Concluida) = []
  · simp [analise_por_categoria, calcular_metricas_vendas, hv]
  · have hmem : ∀ r ∈ df.filter (fun r => r.Status = Status.Concluida),
        TwoDec r.Valor_Final := by
      intro r hr
      have := List.mem_filter.mp hr
      exact h r this.1 (of_decide_eq_true this.2)
    set dfv := df.filter (fun r => r.Status = Status.Concluida) with hdfv
    set cats := (dfv.map fun r => r.Categoria).dedup with hcats
    set rows := cats.map fun c =>
      let g := dfv.filter fun r => r.Categoria = c
      ({ categoria := c,
         receita_total := round2 ((g.map fun r => r.Valor_Final).sum),
         ticket_medio := round2 ((g.map fun r => r.Valor_Final).sum / g.length),
         num_vendas := g.length,
         total_produtos := (g.map fun r => r.Quantidade).sum,
         desconto_medio := round2 ((g.map fun r => r.Desconto_pct).sum / g.length) }
        : CatRow) with hrows
    have hana : analise_por_categoria df
        = sortBy (fun a b => b.receita_total ≤ a.receita_total) rows := by
      simp only [analise_por_categoria, hdfv.symm, hrows, hcats]
      rw [if_neg hv]
    have hperm : ((analise_por_categoria df).map fun row => row.receita_total).sum
        = (rows.map fun row => row.receita_total).sum := by
      rw [hana]
      exact List.Perm.sum_eq (List.Perm.map _ (sortBy_perm _ rows))
    have hrowmap : (rows.map fun row => row.receita_total)
        = cats.map fun c =>
            round2 (((dfv.filter fun r => r.Categoria = c).map fun r => r.Valor_Final).sum) := by
      rw [hrows, List.map_map]
      rfl
    have hnoround : ∀ c ∈ cats,
        round2 (((dfv.filter fun r => r.Categoria = c).map fun r => r.Valor_Final).sum)
          = ((dfv.filter fun r => r.Categoria = c).map fun r => r.Valor_Final).sum := by
      intro c _
      refine round2_twoDec (twoDec_sum ?_)
      intro x hx
      obtain ⟨r, hr, rfl⟩ := List.mem_map.mp hx
      exact hmem r (List.mem_of_mem_filter hr)
    have hfib : (cats.map fun c =>
          ((dfv.filter fun r => r.Categoria = c).map fun r => r.Valor_Final).sum).sum
        = (dfv.map fun r => r.Valor_Final).sum := by
      refine sum_fiber dfv cats (hcats ▸ List.nodup_dedup _) ?_ _
      intro r hr
      rw [hcats]
      exact List.mem_dedup.mpr (List.mem_map_of_mem _ hr)
    have hmet : (calcular_metricas_vendas df).receita_total
        = (dfv.map fun r => r.Valor_Final).sum := by
      simp only [calcular_metricas_vendas, hdfv.symm]
      rw [if_neg hv]
    rw [hperm, hrowmap, hmet, ← hfib]
    exact congrArg List.sum (List.map_congr_left hnoround)

/-- A view whose single Completed sale has a net total of one tenth of a
cent, below the two-decimal grid. -/
def viewMilesimo : List Transaction :=
  [mkT 0 Categoria.Livros Regiao.Sul (1/1000) Status.Concluida]

/-- C4 counterexample: on a sub-cent net total the rounded per-category
sum (0) differs from the unrounded total revenue (0.001). -/
theorem C4_counterexample_subcent :
    ¬ (((analise_por_categoria viewMilesimo).map fun row => row.receita_total).sum
        = (calcular_metricas_vendas viewMilesimo).receita_total) := by
  have hana : analise_por_categoria viewMilesimo
      = [{ categoria := Categoria.Livros,
           receita_total := round2 ((1 : ℚ)/1000 + 0),
           ticket_medio := round2 (((1 : ℚ)/1000 + 0) / 1),
           num_vendas := 1,
           total_produtos := 1,
           desconto_medio := round2 (((0 : ℚ) + 0) / 1) }] := rfl
  have hmet : (calcular_metricas_vendas viewMilesimo).receita_total
      = (1 : ℚ)/1000 + 0 := rfl
  rw [hana, hmet]
  show ¬ (round2 ((1 : ℚ)/1000 + 0) + 0 = (1 : ℚ)/1000 + 0)
  have hr : round2 ((1 : ℚ)/1000 + 0) = 0 := by
    have hfloor : Int.floor ((100 : ℚ) * (1/1000 + 0)) = 0 := by
      rw [Int.floor_eq_zero_iff]
      constructor <;> norm_num
    rw [round2, roundHalfEven]
    rw [hfloor]
    norm_num
  rw [hr]
  norm_num

/-- A mixed three-record view whose Completed net totals are exact
two-decimal values. -/
def viewCentavos : List Transaction :=
  [mkT 0 Categoria.Livros Regiao.Sul 10 Status.Concluida,
   mkT 0 Categoria.Roupas Regiao.Sul (1/2) Status.Concluida,
   mkT 0 Categoria.Livros Regiao.Sul (399/100) Status.Cancelada]

/-- C4 witness: the amended equality holds on a concrete mixed view. -/
theorem C4_witness :
    ((analise_por_categoria viewCentavos).map fun row => row.receita_total).sum
      = (calcular_metricas_vendas viewCentavos).receita_total := by
  refine C4_category_sum_equals_total viewCentavos ?_
  intro r hr _
  simp only [viewCentavos, List.mem_cons, List.not_mem_nil, or_false] at hr
  rcases hr with rfl | rfl | rfl
  · exact ⟨1000, by norm_num [mkT]⟩
  · exact ⟨50, by norm_num [mkT]⟩
  · exact ⟨399, by norm_num [mkT]⟩

/-- Outcome of a numpy float64 computation: a finite value, a signed
infinity, or NaN.  Division by a zero denominator yields an infinity or
NaN (with a runtime warning), never an exception. -/
inductive FloatQ where
  | finite (q : ℚ)
  | posInf
  | negInf
  | nan
deriving DecidableEq, Repr

/-- `(a / b) * 100` in numpy float64 arithmetic: for `b = 0` the result
is a signed infinity (NaN for `0 / 0`), otherwise the exact quotient
scaled by 100. -/
def floatGrowth (a b : ℚ) : FloatQ :=
  if b = 0 then
    if 0 < a then FloatQ.posInf
    else if a < 0 then FloatQ.negInf
    else FloatQ.nan
  else FloatQ.finite (a / b * 100)

/-- Python float comparison `x > c`: `+inf > c` is true, `-inf > c` is
false, and every NaN comparison is false. -/
def floatGT : FloatQ → ℚ → Bool
  | FloatQ.finite q, c => c < q
  | FloatQ.posInf, _ => true
  | FloatQ.negInf, _ => false
  | FloatQ.nan, _ => false

/-- `round(x, 2)` on a float: finite values round half to even;
`round` maps an infinity to itself and NaN to NaN. -/
def round2F : FloatQ → FloatQ
  | FloatQ.finite q => FloatQ.finite (round2 q)
  | x => x

/-- Days-from-epoch to proleptic-Gregorian civil `(year, month, day)`,
modelling the calendar arithmetic behind `Series.dt.to_period("M")`. -/
def civilFromDays (z0 : ℤ) : ℤ × ℤ × ℤ :=
  let z := z0 + 719468
  let era := Int.fdiv z 146097
  let doe := z - era * 146097
  let yoe := Int.fdiv (doe - Int.fdiv doe 1460 + Int.fdiv doe 36524 - Int.fdiv doe 146096) 365
  let y := yoe + era * 400
  let doy := doe - (365 * yoe + Int.fdiv yoe 4 - Int.fdiv yoe 100)
  let mp := Int.fdiv (5 * doy + 2) 153
  let d := doy - Int.fdiv (153 * mp + 2) 5 + 1
  let m := mp + (if mp < 10 then 3 else -9)
  (if m ≤ 2 then y + 1 else y, m, d)

/-- The `(year, month)` period of a millisecond timestamp
(`Data.dt.to_period("M")`). -/
def monthOf (t : ℤ) : ℤ × ℤ :=
  ((civilFromDays (Int.fdiv t msPerDay)).1, (civilFromDays (Int.fdiv t msPerDay)).2.1)

/-- Chronological order on `(year, month)` periods. -/
def monthLe (a b : ℤ × ℤ) : Bool := a.1 < b.1 ∨ (a.1 = b.1 ∧ a.2 ≤ b.2)

/-- `df_vendas.groupby("Mês")["Valor_Final"].sum().sort_index()`: one
entry per distinct month of the view, sorted chronologically, carrying
the sum of the net totals of that month. -/
def dfMensal (dfv : List Transaction) : List ((ℤ × ℤ) × ℚ) :=
  let months := (dfv.map fun r => monthOf r.Data).dedup
  let sortedM := sortBy monthLe months
  sortedM.map fun m =>
    (m, ((dfv.filter fun r => monthOf r.Data = m).map fun r => r.Valor_Final).sum)

/-- Return value of `DataProcessor.tendencias`: the empty dict, the
insufficient-data dict, or the trend dict with the rounded monthly
growth, the label, and the last and previous month totals. -/
inductive TrendResult where
  | vazio
  | insuficiente
  | trend (crescimento_mensal : FloatQ) (tendencia : String)
      (ultimo_mes penultimo_mes : ℚ)
deriving DecidableEq, Repr

/-- The label chain of `tendencias` on a float growth value. -/
def classifyF (c : FloatQ) : String :=
  if floatGT c 5 then "Crescimento Forte"
  else if floatGT c 0 then "Crescimento Moderado"
  else if floatGT c (-5) then "Estável"
  else "Declínio"

/-- The same label chain on an exact rational growth value. -/
def classify (g : ℚ) : String :=
  if 5 < g then "Crescimento Forte"
  else if 0 < g then "Crescimento Moderado"
  else if -5 < g then "Estável"
  else "Declínio"

/-- `DataProcessor.tendencias`: monthly net-total series over the
Completed records; empty view gives the empty dict, fewer than two
months gives the insufficient dict, otherwise growth between the last
two months with the qualitative label. -/
def tendencias (df : List Transaction) : TrendResult :=
  let df_vendas := df.filter fun r => r.Status = Status.Concluida
  if df_vendas = [] then TrendResult.vazio
  else
    let df_mensal := dfMensal df_vendas
    match (df_mensal.map fun mv => mv.2).reverse with
    | ultimo :: penultimo :: _ =>
        let crescimento := floatGrowth (ultimo - penultimo) penultimo
        TrendResult.trend (round2F crescimento) (classifyF crescimento)
          ultimo penultimo
    | _ => TrendResult.insuficiente

lemma classifyF_finite (g : ℚ) : classifyF (FloatQ.finite g) = classify g := by
  simp [classifyF, classify, floatGT]

lemma classify_bands (g : ℚ) :
    (classify g = "Crescimento Forte" ↔ 5 < g) ∧
    (classify g = "Crescimento Moderado" ↔ 0 < g ∧ g ≤ 5) ∧
    (classify g = "Estável" ↔ -5 < g ∧ g ≤ 0) ∧
    (classify g = "Declínio" ↔ g ≤ -5) := by
  unfold classify
  split_ifs with h1 h2 h3
  · exact ⟨iff_of_true rfl h1,
      iff_of_false (by decide) fun h => absurd h1 (not_lt.mpr h.2),
      iff_of_false (by decide) fun h =>
        absurd h1 (not_lt.mpr (le_trans h.2 (by norm_num))),
      iff_of_false (by decide) fun h =>
        absurd h1 (not_lt.mpr (le_trans h (by norm_num)))⟩
  · exact ⟨iff_of_false (by decide) h1,
      iff_of_true rfl ⟨h2, not_lt.mp h1⟩,
      iff_of_false (by decide) fun h => absurd h2 (not_lt.mpr h.2),
      iff_of_false (by decide) fun h =>
        absurd h2 (not_lt.mpr (le_trans h (by norm_num)))⟩
  · exact ⟨iff_of_false (by decide) h1,
      iff_of_false (by decide) fun h => h2 h.1,
      iff_of_true rfl ⟨h3, not_lt.mp h2⟩,
      iff_of_false (by decide) fun h => absurd h3 (not_lt.mpr h)⟩
  · exact ⟨iff_of_false (by decide) h1,
      iff_of_false (by decide) fun h => h2 h.1,
      iff_of_false (by decide) fun h => h3 h.1,
      iff_of_true rfl (not_lt.mp h3)⟩

/-- The three-month scenario view: net totals 1000, 1200 and 1100 in
January, February and March 1970. -/
def viewTresMeses : List Transaction :=
  [mkT 0 Categoria.Livros Regiao.Sul 1000 Status.Concluida,
   mkT (31 * msPerDay) Categoria.Livros Regiao.Sul 1200 Status.Concluida,
   mkT (59 * msPerDay) Categoria.Livros Regiao.Sul 1100 Status.Concluida]

lemma round2_neg_eight_third : round2 (-25/3 : ℚ) = -833/100 := by
  have hfloor : Int.floor ((100 : ℚ) * (-25/3)) = -834 := by
    rw [show (100 : ℚ) * (-25/3) = -2500/3 by norm_num, Int.floor_eq_iff]
    constructor <;> norm_num
  rw [round2, roundHalfEven, hfloor]
  norm_num

lemma tendencias_viewTresMeses :
    tendencias viewTresMeses
      = TrendResult.trend (FloatQ.finite (-833/100)) "Declínio" 1100 1200 := by
  have h0 : tendencias viewTresMeses
      = TrendResult.trend
          (round2F (floatGrowth ((1100 + 0 : ℚ) - (1200 + 0)) (1200 + 0)))
          (classifyF (floatGrowth ((1100 + 0 : ℚ) - (1200 + 0)) (1200 + 0)))
          (1100 + 0) (1200 + 0) := rfl
  rw [h0]
  have ha : ((1100 + 0 : ℚ) - (1200 + 0)) = -100 := by norm_num
  have hb : ((1200 + 0 : ℚ)) = 1200 := by norm_num
  rw [ha, hb]
  have hg : floatGrowth (-100) 1200 = FloatQ.finite (-25/3) := by
    rw [floatGrowth, if_neg (by norm_num : ¬ ((1200 : ℚ) = 0))]
    norm_num
  rw [hg, round2F, round2_neg_eight_third, classifyF_finite]
  have hc : classify (-25/3 : ℚ) = "Declínio" :=
    (classify_bands (-25/3)).2.2.2.mpr (by norm_num)
  rw [hc]
  norm_num

/-- C8: for every view whose Completed records span at least two months,
with last-month total `L` and nonzero previous-month total `P`,
`tendencias` returns growth `(L − P)/P × 100` rounded to two decimals
together with the label given by the bands `growth > 5` strong,
`0 < growth ≤ 5` moderate, `−5 < growth ≤ 0` stable, `growth ≤ −5`
decline; and the 3-month series 1000, 1200, 1100 yields −8.33,
classified decline. -/
theorem C8_trend_growth_and_bands (df : List Transaction) (L P : ℚ) (rest : List ℚ)
    (hrev : (((dfMensal (df.filter fun r => r.Status = Status.Concluida)).map
        fun mv => mv.2).reverse) = L :: P :: rest)
    (hP : P ≠ 0) :
    (tendencias df
      = TrendResult.trend (FloatQ.finite (round2 ((L - P) / P * 100)))
          (classify ((L - P) / P * 100)) L P) ∧
    (∀ g : ℚ,
      (classify g = "Crescimento Forte" ↔ 5 < g) ∧
      (classify g = "Crescimento Moderado" ↔ 0 < g ∧ g ≤ 5) ∧
      (classify g = "Estável" ↔ -5 < g ∧ g ≤ 0) ∧
      (classify g = "Declínio" ↔ g ≤ -5)) ∧
    tendencias viewTresMeses
      = TrendResult.trend (FloatQ.finite (-833/100)) "Declínio" 1100 1200 := by
  refine ⟨?_, classify_bands, tendencias_viewTresMeses⟩
  have hdfv : ¬ (df.filter fun r => r.Status = Status.Concluida) = [] := by
    intro h0
    rw [h0] at hrev
    simp [dfMensal, sortBy] at hrev
  simp only [tendencias]
  rw [if_neg hdfv, hrev]
  show TrendResult.trend (round2F (floatGrowth (L - P) P))
        (classifyF (floatGrowth (L - P) P)) L P
      = TrendResult.trend (FloatQ.finite (round2 ((L - P) / P * 100)))
          (classify ((L - P) / P * 100)) L P
  have hg : floatGrowth (L - P) P = FloatQ.finite ((L - P) / P * 100) := by
    rw [floatGrowth, if_neg hP]
  rw [hg, classifyF_finite]
  rfl

/-- C8 witness: the general theorem applied to the concrete three-month
view, whose previous-month total 1200 is nonzero. -/
theorem C8_witness :
    (tendencias viewTresMeses
      = TrendResult.trend (FloatQ.finite (round2 (((1100 : ℚ) - 1200) / 1200 * 100)))
          (classify (((1100 : ℚ) - 1200) / 1200 * 100)) 1100 1200) ∧
    (∀ g : ℚ,
      (classify g = "Crescimento Forte" ↔ 5 < g) ∧
      (classify g = "Crescimento Moderado" ↔ 0 < g ∧ g ≤ 5) ∧
      (classify g = "Estável" ↔ -5 < g ∧ g ≤ 0) ∧
      (classify g = "Declínio" ↔ g ≤ -5)) ∧
    tendencias viewTresMeses
      = TrendResult.trend (FloatQ.finite (-833/100)) "Declínio" 1100 1200 :=
  C8_trend_growth_and_bands viewTresMeses 1100 1200 [1000]
    (by show ((1100 : ℚ) + 0) :: ((1200 : ℚ) + 0) :: [((1000 : ℚ) + 0)]
          = [1100, 1200, 1000]
        norm_num)
    (by norm_num)

/-- A view whose Completed records span two months with the earlier
month summing to exactly zero net total. -/
def viewMesZero : List Transaction :=
  [mkT 0 Categoria.Livros Regiao.Sul 0 Status.Concluida,
   mkT (31 * msPerDay) Categoria.Livros Regiao.Sul 100 Status.Concluida]

/-- C3: on a view with two completed months whose previous-month total
is exactly 0, `tendencias` divides by zero in float arithmetic and
returns a positive infinity labelled "Crescimento Forte" — not an
explicit typed DivisionUndefined outcome reported as 0 or "undefined". -/
theorem C3_zero_denominator_gives_infinity :
    tendencias viewMesZero
      = TrendResult.trend FloatQ.posInf "Crescimento Forte" 100 0 := by
  have h0 : tendencias viewMesZero
      = TrendResult.trend
          (round2F (floatGrowth ((100 + 0 : ℚ) - (0 + 0)) (0 + 0)))
          (classifyF (floatGrowth ((100 + 0 : ℚ) - (0 + 0)) (0 + 0)))
          (100 + 0) (0 + 0) := rfl
  rw [h0]
  have ha : ((100 + 0 : ℚ) - (0 + 0)) = 100 := by norm_num
  have hb : ((0 + 0 : ℚ)) = 0 := by norm_num
  rw [ha, hb]
  have hg : floatGrowth 100 0 = FloatQ.posInf := by
    rw [floatGrowth, if_pos rfl, if_pos (by norm_num : (0 : ℚ) < 100)]
  rw [hg]
  norm_num [round2F, classifyF, floatGT]

/-- City lists per region, as listed in `data_generator.py`. -/
def cidades : Regiao → List String
  | Regiao.Norte => ["Manaus", "Belém", "Porto Velho"]
  | Regiao.Nordeste => ["Salvador", "Recife", "Fortaleza", "Natal"]
  | Regiao.CentroOeste => ["Brasília", "Goiânia", "Campo Grande"]
  | Regiao.Sudeste => ["São Paulo", "Rio de Janeiro", "Belo Horizonte", "Vitória"]
  | Regiao.Sul => ["Curitiba", "Porto Alegre", "Florianópolis"]

/-- Price range `(min, max)` per category. -/
def precos_base : Categoria → ℚ × ℚ
  | Categoria.Eletronicos => (500, 5000)
  | Categoria.Roupas => (50, 500)
  | Categoria.CasaEJardim => (30, 800)
  | Categoria.Esportes => (100, 1500)
  | Categoria.Livros => (20, 150)
  | Categoria.Brinquedos => (25, 400)
  | Categoria.Alimentos => (10, 200)
  | Categoria.Beleza => (15, 300)

/-- Display name of a category, used in the product label. -/
def nomeCategoria : Categoria → String
  | Categoria.Eletronicos => "Eletrônicos"
  | Categoria.Roupas => "Roupas"
  | Categoria.CasaEJardim => "Casa e Jardim"
  | Categoria.Esportes => "Esportes"
  | Categoria.Livros => "Livros"
  | Categoria.Brinquedos => "Brinquedos"
  | Categoria.Alimentos => "Alimentos"
  | Categoria.Beleza => "Beleza"

/-- The four payment methods. -/
def metodosPagamento : List String := ["Cartão Crédito", "Cartão Débito", "PIX", "Boleto"]

/-- The discrete discount set. -/
def descontos : List ℚ := [0, 5, 10, 15, 20, 25, 30]

/-- Zero-padded five-digit formatting, as in the f-string `V{i+1:05d}`
(record indices stay below 100000 in practice). -/
def pad5 (n : ℕ) : String :=
  let s := toString n
  String.mk (List.replicate (5 - s.length) '0') ++ s

/-- The stream of pseudo-random draws one generator run consumes.  After
`np.random.seed(seed)` and `random.seed(seed)` the library PRNGs are
deterministic functions of the seed alone, so a run's draws are a
function of the seed and the record index; `perm` is the rearrangement
performed by `random.sample(datas, n)`, with its defining permutation
property carried alongside. -/
structure GenDraws where
  perm : List ℤ → List ℤ
  perm_prop : ∀ l, (perm l).Perm l
  catD : ℕ → Fin 8
  regD : ℕ → Fin 5
  cityD : ℕ → ℕ
  valorD : ℕ → ℚ → ℚ → ℚ
  quantD : ℕ → Fin 9
  descD : ℕ → Fin 7
  statusD : ℕ → Status
  pagD : ℕ → Fin 4
  vendD : ℕ → Fin 20
  cliD : ℕ → ℕ

/-- One generated record: index `i`, its assigned timestamp `data`, and
the drawn fields; apart from `Data`, every field depends only on the
draws and the index. -/
def mkRecord (draws : GenDraws) (data : ℤ) (i : ℕ) : Transaction :=
  let categoria := allCategorias.getD (draws.catD i).val Categoria.Eletronicos
  let regiao := allRegioes.getD (draws.regD i).val Regiao.Norte
  let cs := cidades regiao
  let cidade := cs.getD (draws.cityD i % cs.length) ""
  let pr := precos_base categoria
  let valor := round2 (draws.valorD i pr.1 pr.2)
  let quantidade := (draws.quantD i).val + 1
  let total := round2 (valor * (quantidade : ℚ))
  let desconto := descontos.getD (draws.descD i).val 0
  let valor_final := round2 (total * (1 - desconto / 100))
  { ID := "V" ++ pad5 (i + 1),
    Data := data,
    Categoria := categoria,
    Produto := "Produto " ++ nomeCategoria categoria ++ " " ++ toString (i + 1),
    Regiao := regiao,
    Cidade := cidade,
    Valor_Unitario := valor,
    Quantidade := quantidade,
    Valor_Total := total,
    Desconto_pct := desconto,
    Valor_Final := valor_final,
    Status := draws.statusD i,
    Metodo_Pagamento := metodosPagamento.getD (draws.pagD i).val "",
    Vendedor := "Vendedor " ++ toString ((draws.vendD i).val + 1),
    Cliente_ID := "C" ++ toString (1000 + draws.cliD i % 8999) }

/-- `gerar_dados_vendas(n_registros, seed)`: the date pool is
`datetime.now() − 365 days + x days` for `x < n`; `random.sample(datas,
n)` draws all `n` without replacement (a permutation) and `sorted`
re-sorts them ascending; record `i` receives the `i`-th sorted date.
`now` is the wall-clock generation time in milliseconds, a hidden input
the source reads via `datetime.now()`; the function is total — no count
is rejected. -/
def gerar_dados_vendas (draws : GenDraws) (now : ℤ) (n : ℕ) : List Transaction :=
  let data_inicio := now - 365 * msPerDay
  let datas := (List.range n).map fun (x : ℕ) => data_inicio + (x : ℤ) * msPerDay
  let datas2 := sortBy (fun a b => a ≤ b) (draws.perm datas)
  (List.range n).map fun i => mkRecord draws (datas2.getD i 0) i

lemma datas_sorted (base : ℤ) (n : ℕ) :
    ((List.range n).map fun (x : ℕ) => base + (x : ℤ) * msPerDay).Sorted (· ≤ ·) := by
  refine List.Pairwise.map _ ?_ (List.pairwise_lt_range n)
  intro a b hab
  have hc : (a : ℤ) ≤ (b : ℤ) := by exact_mod_cast le_of_lt hab
  have hd : (0 : ℤ) ≤ msPerDay := by norm_num [msPerDay]
  exact add_le_add_left (mul_le_mul_of_nonneg_right hc hd) base

lemma sortBy_of_perm_of_sorted {l l2 : List ℤ} (hp : l2.Perm l)
    (hs : l.Sorted (· ≤ ·)) : sortBy (fun a b => a ≤ b) l2 = l :=
  List.eq_of_perm_of_sorted ((sortBy_perm _ l2).trans hp) (sortBy_sorted_int l2) hs

lemma gerar_datas (draws : GenDraws) (now : ℤ) (n : ℕ) :
    (gerar_dados_vendas draws now n).map (fun r => r.Data)
      = (List.range n).map fun (x : ℕ) => now - 365 * msPerDay + (x : ℤ) * msPerDay := by
  simp only [gerar_dados_vendas]
  rw [sortBy_of_perm_of_sorted (draws.perm_prop _) (datas_sorted (now - 365 * msPerDay) n)]
  rw [List.map_map]
  refine List.map_congr_left fun i hi => ?_
  have hi2 : i < n := List.mem_range.mp hi
  show (((List.range n).map fun (x : ℕ) => now - 365 * msPerDay + (x : ℤ) * msPerDay).getD i 0)
      = now - 365 * msPerDay + (i : ℤ) * msPerDay
  rw [List.getD_eq_getElem?_getD, List.getElem?_map, List.getElem?_range hi2]
  rfl

/-- C1: with the module's default count 1000, the generator returns a
full 1000-record collection — there is no ConfigurationError path — and
its date range spills past the generation time `now`, outside the
trailing 365-day window, for every draw stream (seed) and every
generation time. -/
theorem C1_count_beyond_window_returns_collection (draws : GenDraws) (now : ℤ) :
    (gerar_dados_vendas draws now 1000).length = 1000 ∧
    ∃ r ∈ gerar_dados_vendas draws now 1000, now < r.Data := by
  constructor
  · simp [gerar_dados_vendas]
  · have hd := gerar_datas draws now 1000
    have hmem : (now - 365 * msPerDay + (999 : ℤ) * msPerDay)
        ∈ (gerar_dados_vendas draws now 1000).map fun r => r.Data := by
      rw [hd]
      refine List.mem_map.mpr ⟨999, List.mem_range.mpr (by norm_num), ?_⟩
      norm_num
    obtain ⟨r, hr, hreq⟩ := List.mem_map.mp hmem
    refine ⟨r, hr, ?_⟩
    have : r.Data = now - 365 * msPerDay + (999 : ℤ) * msPerDay := hreq
    rw [this]
    have h365 : (365 : ℤ) * msPerDay < 999 * msPerDay := by norm_num [msPerDay]
    linarith

/-- Tuple of every record column except the timestamp. -/
def stripData (r : Transaction) :=
  (r.ID, r.Categoria, r.Produto, r.Regiao, r.Cidade, r.Valor_Unitario,
   r.Quantidade, r.Valor_Total, r.Desconto_pct, r.Valor_Final, r.Status,
   r.Metodo_Pagamento, r.Vendedor, r.Cliente_ID)

/-- C5 amended: for a fixed draw stream (fixed seed) and fixed count,
every column except the timestamp is identical across invocations at
different wall-clock times; only `Data` (and anything derived from it)
varies with `datetime.now()`. -/
theorem C5_all_but_dates_deterministic (draws : GenDraws) (n : ℕ) (t1 t2 : ℤ) :
    (gerar_dados_vendas draws t1 n).map stripData
      = (gerar_dados_vendas draws t2 n).map stripData := by
  simp only [gerar_dados_vendas, List.map_map]
  exact List.map_congr_left fun i _ => rfl

/-- One fixed draw stream, standing for the output of the seeded PRNGs. -/
def defaultDraws : GenDraws where
  perm := id
  perm_prop := fun l => List.Perm.refl l
  catD := fun _ => 0
  regD := fun _ => 0
  cityD := fun _ => 0
  valorD := fun _ mn _ => mn
  quantD := fun _ => 0
  descD := fun _ => 0
  statusD := fun _ => Status.Concluida
  pagD := fun _ => 0
  vendD := fun _ => 0
  cliD := fun _ => 0

/-- C5 counterexample: the same count and the same draw stream (same
seed) invoked at two different wall-clock times give different
collections — the timestamp column shifts with `datetime.now()`, so
generation is not a function of count and seed alone. -/
theorem C5_counterexample_now_dependence :
    gerar_dados_vendas defaultDraws 0 1 ≠ gerar_dados_vendas defaultDraws msPerDay 1 := by
  intro h
  have hd := congrArg (List.map fun r => r.Data) h
  rw [gerar_datas defaultDraws 0 1, gerar_datas defaultDraws msPerDay 1] at hd
  simp only [show List.range 1 = [0] from rfl, List.map_cons, List.map_nil,
    List.cons.injEq, and_true] at hd
  norm_num [msPerDay] at hd
